import Mathlib

/-!
Shallow embedding of the session-orchestration core of the `bank_scrapers`
repository, and proofs of the specified properties.

Embedded code (all definitions below are translated from these sources):
* `src/bank_scrapers/common/functions.py` —
  `convert_to_prometheus`, `wait_for_path_to_exist`, `wait_for_files_in_dir`,
  `search_files_for_int` (OTP acquisition by filesystem polling).
* `src/bank_scrapers/scrapers/common/functions.py` — `screenshot_on_timeout`
  (diagnostic capture wrapper).
* `src/bank_scrapers/examples/prometheus_exporter/bank_exporter.py` — `retry`
  (bounded retry wrapper).
* `src/bank_scrapers/scrapers/chase/driver.py` — the login/redirect
  classification inside `get_accounts_info` (`is_mfa_redirect`,
  `is_mfa_redirect_alternate`, `password_needs_reset`, `wait_for_redirect`,
  `wait_for_landing_page`).

Modelling conventions: the filesystem visible to the OTP poller is a static
snapshot (`Dir`); blocking loops take an explicit fuel argument and return
`none` when the fuel runs out, so that every function is total and
executable; Python exceptions become values of the `Err` type; millisecond
comparisons `x >= timeout / 1000` on integers are rendered exactly as
`timeout ≤ 1000 * x`.
-/

namespace BankScrapers

/-- Boolean prefix test on character lists. -/
def prefixOfB : List Char → List Char → Bool
  | [], _ => true
  | _ :: _, [] => false
  | a :: as, b :: bs => a == b && prefixOfB as bs

/-- Boolean infix (contiguous-sublist) test on character lists. -/
def infixOfB (sub : List Char) : List Char → Bool
  | [] => sub.isEmpty
  | c :: rest => prefixOfB sub (c :: rest) || infixOfB sub rest

/-- Semantics of the Python `in` operator on strings: substring containment. -/
def strContains (hay sub : String) : Bool :=
  infixOfB sub.data hay.data

/-- Semantics of the Python `str.endswith`. -/
def strEndsWith (s suffix : String) : Bool :=
  prefixOfB suffix.data.reverse s.data.reverse

/-- Exceptions raised by the embedded code.  The three OTP-stage failures are
all Python `TimeoutError`s distinguished only by their message; `indexError`
models the `IndexError` escaping from `re.findall(...)[0]`; `assertionError`
models a failed `assert`. -/
inductive Err where
  | timeoutError (msg : String)
  | indexError
  | assertionError
  deriving DecidableEq

/-! ## OTP acquisition — `bank_scrapers/common/functions.py` -/

/-- A static snapshot of the polled directory: whether the path exists, and
the (filename, content) pairs inside it. -/
structure Dir where
  pathExists : Bool
  files : List (String × String)
  deriving DecidableEq

/-- Whitespace characters matched by the regex class `\s` (ASCII range, which
covers every content the scrapers deal in). -/
def isPySpace (c : Char) : Bool :=
  c == ' ' || c == '\t' || c == '\n' || c == '\r' || c == '\x0b' || c == '\x0c'

/-- `text.read().replace("\n", "")`: the file content with newlines stripped. -/
def stripNewlines (s : String) : String :=
  String.mk (s.data.filter (fun c => c ≠ '\n'))

/-- The separator group `(\s+|:\s)` of the institute-tag pattern: at least one
whitespace character, or a colon followed by one whitespace character. -/
def sepOk : List Char → Bool
  | [] => false
  | c :: rest =>
    isPySpace c ||
      (c == ':' && (match rest with
        | d :: _ => isPySpace d
        | [] => false))

/-- Boolean semantics of
`re.compile(r"^.*{tag}(\s+|:\s).*").match(content)` for a literal `tag` on
newline-free content: the tag occurs at some position, immediately followed by
the separator group. -/
def matchesTag (tag : List Char) : List Char → Bool
  | [] => false
  | c :: rest =>
    (prefixOfB tag (c :: rest) && sepOk ((c :: rest).drop tag.length)) ||
      matchesTag tag rest

/-- Semantics of `re.findall(rf"\d{minL,maxL}", content)[0]` (first match of
the greedy bounded digit-run pattern): at the leftmost position where at least
`minL` digits start, take up to `maxL` of them; `none` when `findall` comes
back empty (so `[0]` raises `IndexError`). -/
def findFirstCode (minL maxL : Nat) : List Char → Option String
  | [] => if minL = 0 then some "" else none
  | c :: rest =>
    let run := (c :: rest).takeWhile (fun d => d.isDigit)
    if minL ≤ run.length then some (String.mk (run.take maxL))
    else findFirstCode minL maxL rest

/-- Outcome of examining the candidate files on one poll iteration. -/
inductive FileScan where
  | noMatch
  | code (c : String)
  | indexError
  deriving DecidableEq

/-- Per-file body of the scan loop in `search_files_for_int`: strip newlines,
test the institute-tag pattern, and on a match extract the first bounded digit
run (`IndexError` when there is none). -/
def scanContent (content tag : String) (minL maxL : Nat) : FileScan :=
  let cs := (stripNewlines content).data
  if matchesTag tag.data cs then
    match findFirstCode minL maxL cs with
    | some c => .code c
    | none => .indexError
  else .noMatch

/-- Insertion step of sorting directory entries by name (Python `sorted`). -/
def insertName (n : String) : List String → List String
  | [] => [n]
  | m :: rest => if m < n then m :: insertName n rest else n :: m :: rest

/-- `sorted(os.listdir(filepath))`: directory names in ascending order. -/
def sortNames : List String → List String
  | [] => []
  | n :: rest => insertName n (sortNames rest)

/-- Content lookup for a chosen filename in the directory snapshot. -/
def contentOf (files : List (String × String)) (name : String) : String :=
  ((files.map (fun f => (f.1, f.2))).lookup name).getD ""

/-- The `for file in sorted(...)[:2]` body: first candidate with the expected
extension whose content yields a scan outcome other than `noMatch` decides. -/
def scanFiles (files : List (String × String)) (tag : String)
    (minL maxL : Nat) (ext : String) : List String → FileScan
  | [] => .noMatch
  | n :: rest =>
    if strEndsWith n ext then
      match scanContent (contentOf files n) tag minL maxL with
      | .code c => .code c
      | .indexError => .indexError
      | .noMatch => scanFiles files tag minL maxL ext rest
    else scanFiles files tag minL maxL ext rest

/-- One poll iteration over the directory: sort names (reversed when
`rev`), keep the first two, scan them. -/
def scanDir (files : List (String × String)) (tag : String)
    (minL maxL : Nat) (ext : String) (rev : Bool) : FileScan :=
  let names := sortNames (files.map (fun f => f.1))
  scanFiles files tag minL maxL ext ((if rev then names.reverse else names).take 2)

/-- `TimeoutError("File path doesn't exist!")` from `wait_for_path_to_exist`. -/
def pathNotFoundErr : Err := .timeoutError "File path doesn't exist!"

/-- `TimeoutError("No files in file path!")` from `wait_for_files_in_dir`. -/
def noFilesFoundErr : Err := .timeoutError "No files in file path!"

/-- The message of the `TimeoutError` raised when polling exhausts `timeout`
without extracting a code. -/
def codeNotFoundMsg (timeout : Nat) : String :=
  "OTP code not found after " ++ toString timeout ++ " seconds"

/-- `TimeoutError(f"OTP code not found after {timeout} seconds")`. -/
def codeNotFoundErr (timeout : Nat) : Err := .timeoutError (codeNotFoundMsg timeout)

/-- The shared shape of `wait_for_path_to_exist` and `wait_for_files_in_dir`:
`while not cond: sleep(1); i += 1; if i >= timeout / 1000: raise err`.
Returns the result together with the number of one-second sleeps performed;
`none` when the fuel runs out before the loop decides. -/
def waitLoop (cond : Bool) (timeout : Nat) (err : Err) :
    Nat → Nat → Option (Except Err Unit × Nat)
  | 0, _ => if cond then some (.ok (), 0) else none
  | fuel + 1, i =>
    if cond then some (.ok (), 0)
    else if timeout ≤ 1000 * (i + 1) then some (.error err, 1)
    else
      match waitLoop cond timeout err fuel (i + 1) with
      | some (r, s) => some (r, s + 1)
      | none => none

/-- `wait_for_path_to_exist(filepath, timeout)` on the directory snapshot. -/
def wait_for_path_to_exist (d : Dir) (timeout fuel : Nat) :
    Option (Except Err Unit × Nat) :=
  waitLoop d.pathExists timeout pathNotFoundErr fuel 0

/-- `wait_for_files_in_dir(filepath, timeout)` on the directory snapshot. -/
def wait_for_files_in_dir (d : Dir) (timeout fuel : Nat) :
    Option (Except Err Unit × Nat) :=
  waitLoop (!d.files.isEmpty) timeout noFilesFoundErr fuel 0

/-- The main polling loop of `search_files_for_int`:
`while True: if total_delay >= timeout / 1000: raise; sleep(delay);
total_delay += delay; scan the first two files`.  Since the directory snapshot
is static the per-iteration scan outcome is a constant.  Returns the result
together with the seconds slept; `none` when the fuel runs out. -/
def otpLoop (scan : FileScan) (timeout delay : Nat) :
    Nat → Nat → Option (Except Err String × Nat)
  | 0, _ => none
  | fuel + 1, total =>
    if timeout ≤ 1000 * total then some (.error (codeNotFoundErr timeout), 0)
    else
      match scan with
      | .code c => some (.ok c, delay)
      | .indexError => some (.error .indexError, delay)
      | .noMatch =>
        match otpLoop scan timeout delay fuel (total + delay) with
        | some (r, s) => some (r, s + delay)
        | none => none

/-- `search_files_for_int(filepath, match_string, min_length, max_length,
timeout, file_ext, reverse, delay)` on a static directory snapshot: wait for
the path, wait for files, then poll.  Returns the result together with the
total seconds slept. -/
def search_files_for_int (d : Dir) (tag : String) (minL maxL timeout : Nat)
    (ext : String) (rev : Bool) (delay : Nat) (fuel : Nat) :
    Option (Except Err String × Nat) :=
  match wait_for_path_to_exist d timeout fuel with
  | none => none
  | some (.error e, s) => some (.error e, s)
  | some (.ok _, s1) =>
    match wait_for_files_in_dir d timeout fuel with
    | none => none
    | some (.error e, s2) => some (.error e, s1 + s2)
    | some (.ok _, s2) =>
      match otpLoop (scanDir d.files tag minL maxL ext rev) timeout delay fuel 0 with
      | none => none
      | some (r, s3) => some (r, s1 + s2 + s3)

/-! ## Diagnostic capture wrapper — `bank_scrapers/scrapers/common/functions.py` -/

/-- Outcome of one wrapped session-operating step.  `timeoutError` is the
Playwright `TimeoutError`, `assertionError` a failed assertion, `otherError`
any exception outside the caught set. -/
inductive StepOutcome (α : Type) where
  | ok (a : α)
  | timeoutError
  | assertionError
  | otherError (msg : String)
  deriving DecidableEq

/-- Filesystem side effects performed by the wrapper. -/
inductive FsEffect where
  | makeDirs (dir : String)
  | writeScreenshot (path : String)
  deriving DecidableEq

/-- `os.path.dirname`: everything before the final `/` separator. -/
def dirname (p : String) : String :=
  String.intercalate "/" ((p.splitOn "/").dropLast)

/-- `screenshot_on_timeout(save_path)` applied to a step with the given
outcome: on success or an uncaught error, pass through with no side effects;
on `TimeoutError` or `AssertionError`, create the destination directory, save
a screenshot to `save_path`, and re-raise the original error unchanged. -/
def screenshot_on_timeout (savePath : String) (step : StepOutcome α) :
    StepOutcome α × List FsEffect :=
  match step with
  | .ok a => (.ok a, [])
  | .timeoutError =>
    (.timeoutError, [.makeDirs (dirname savePath), .writeScreenshot savePath])
  | .assertionError =>
    (.assertionError, [.makeDirs (dirname savePath), .writeScreenshot savePath])
  | .otherError m => (.otherError m, [])

/-- The artifact files written by a list of filesystem effects. -/
def writtenFiles (effs : List FsEffect) : List String :=
  effs.filterMap (fun e =>
    match e with
    | .writeScreenshot p => some p
    | .makeDirs _ => none)

/-! ## Table normalizer — `convert_to_prometheus` -/

/-- A pandas dataframe as consumed by the normalizer: its column names, and
its rows as (column → cell) association lists.  Cell values are opaque
(`V`). -/
structure DataFrame (V : Type) where
  cols : List String
  rows : List (List (String × V))
  deriving DecidableEq

/-- `row[c]`: cell lookup by column name. -/
def rowVal [Inhabited V] (row : List (String × V)) (c : String) : V :=
  (row.lookup c).getD default

/-- One Prometheus metric: the label 4-tuple and the value. -/
structure Metric (V : Type) where
  institution : String
  account : V
  accountType : V
  symbol : V
  value : V
  deriving DecidableEq

/-- The `all([...])` guard of `convert_to_prometheus`: the table carries every
required column. -/
def hasRequired (t : DataFrame V) (account_column current_balance_column
    account_type_column symbol_column : String) : Bool :=
  t.cols.contains account_column && t.cols.contains current_balance_column &&
    t.cols.contains account_type_column && t.cols.contains symbol_column

/-- The metric built from one row. -/
def rowMetric [Inhabited V] (institution : String) (account_column
    symbol_column current_balance_column account_type_column : String)
    (row : List (String × V)) : Metric V :=
  { institution := institution
    account := rowVal row account_column
    accountType := rowVal row account_type_column
    symbol := rowVal row symbol_column
    value := rowVal row current_balance_column }

/-- The metrics emitted for one qualifying table: one per row, in order. -/
def tableMetrics [Inhabited V] (institution : String) (account_column
    symbol_column current_balance_column account_type_column : String)
    (t : DataFrame V) : List (Metric V) :=
  t.rows.map (rowMetric institution account_column symbol_column
    current_balance_column account_type_column)

/-- The accumulation loop of `convert_to_prometheus` before the assert. -/
def rawMetrics [Inhabited V] (table_list : List (DataFrame V))
    (institution : String) (account_column symbol_column
    current_balance_column account_type_column : String) : List (Metric V) :=
  table_list.foldl
    (fun acc t =>
      if hasRequired t account_column current_balance_column
          account_type_column symbol_column then
        acc ++ tableMetrics institution account_column symbol_column
          current_balance_column account_type_column t
      else acc)
    []

/-- `convert_to_prometheus(table_list, institution, account_column,
symbol_column, current_balance_column, account_type_column)`: emit one metric
per row of every table carrying all four required columns, then
`assert current_balance_metrics` — an empty result raises `AssertionError`
(the spec's `EmptyMetricSet`). -/
def convert_to_prometheus [Inhabited V] (table_list : List (DataFrame V))
    (institution : String) (account_column symbol_column
    current_balance_column account_type_column : String) :
    Except Err (List (Metric V)) :=
  if (rawMetrics table_list institution account_column symbol_column
      current_balance_column account_type_column).isEmpty then
    .error .assertionError
  else
    .ok (rawMetrics table_list institution account_column symbol_column
      current_balance_column account_type_column)

/-! ## Retry wrapper — `bank_scrapers/examples/prometheus_exporter/bank_exporter.py` -/

/-- Outcome of one invocation of the wrapped function: a value, or a raised
exception that is (`whitelisted := true`) or is not in the decorator's
`exceptions` tuple. -/
inductive CallOutcome (α : Type) where
  | ok (a : α)
  | raised (whitelisted : Bool) (e : String)
  deriving DecidableEq

/-- Observable outcome of the `_retry` loop: a returned value, a propagated
exception, or the implicit `None` returned when the loop body never runs. -/
inductive RetryOutcome (α : Type) where
  | value (a : α)
  | raised (e : String)
  | noneReturned
  deriving DecidableEq

/-- The `while this_retries > 0` loop of `_retry`, structurally recursive on
the remaining retry budget.  `fn k` is the outcome of the (k+1)-th invocation
(same arguments each time).  Returns (outcome, number of invocations, number
of sleeps). -/
def retryAux (fn : Nat → CallOutcome α) : Nat → Nat → RetryOutcome α × Nat × Nat
  | 0, _ => (.noneReturned, 0, 0)
  | tr + 1, k =>
    match fn k with
    | .ok a => (.value a, 1, 0)
    | .raised w e =>
      if w then
        if tr = 0 then (.raised e, 1, 0)
        else
          match retryAux fn tr (k + 1) with
          | (r, c, s) => (r, c + 1, s + 1)
      else (.raised e, 1, 0)

/-- `retry(exceptions, retries, delay)` applied to a function: run the
`_retry` loop with the configured (integer) retry budget; a non-positive
budget means the `while` guard fails immediately. -/
def retry (fn : Nat → CallOutcome α) (retries : Int) :
    RetryOutcome α × Nat × Nat :=
  retryAux fn retries.toNat 0

/-! ## Chase login classification — `bank_scrapers/scrapers/chase/driver.py` -/

/-- What the login code observes of the browser: the current URL and the page
source. -/
structure Page where
  current_url : String
  page_source : String
  deriving DecidableEq

/-- `is_mfa_redirect(driver)`. -/
def is_mfa_redirect (p : Page) : Bool :=
  strContains p.current_url "chase.com/web/auth/" &&
    strContains p.page_source "We don't recognize this device"

/-- `is_mfa_redirect_alternate(driver)`. -/
def is_mfa_redirect_alternate (p : Page) : Bool :=
  strContains p.current_url "chase.com/web/auth/" &&
    strContains p.page_source "Let's make sure it's you"

/-- `password_needs_reset(driver)`. -/
def password_needs_reset (p : Page) : Bool :=
  strContains p.current_url "chase.com/web/auth/" &&
    strContains p.page_source "We can't find that username and password" &&
    strContains p.page_source
      "Keep in mind: You won't be able to see your statements and notices until you reset your password."

/-- The landing-page predicate used by `wait_for_redirect` and
`wait_for_landing_page`. -/
def on_dashboard (p : Page) : Bool :=
  strContains p.current_url "chase.com/web/auth/dashboard#/dashboard/overview"

/-- The exit condition of `wait_for_redirect`: landing page, one of the two
MFA challenges, or the password-reset page. -/
def redirect_done (p : Page) : Bool :=
  on_dashboard p || is_mfa_redirect p || is_mfa_redirect_alternate p ||
    password_needs_reset p

/-- The dispatch performed by `get_accounts_info` right after
`wait_for_redirect`: the `if / elif / elif` chain over the classifiers. -/
inductive PostRedirect where
  | handleMfa
  | handleMfaAlternate
  | exitProcess (code : Nat)
  | noChallenge
  deriving DecidableEq

/-- Lines 707–713 of `get_accounts_info`: primary MFA handler, else alternate
MFA handler, else `exit(1)` on password reset, else fall through. -/
def classify_redirect (p : Page) : PostRedirect :=
  if is_mfa_redirect p then .handleMfa
  else if is_mfa_redirect_alternate p then .handleMfaAlternate
  else if password_needs_reset p then .exitProcess 1
  else .noChallenge

/-- Observable outcome of the login portion of `get_accounts_info`.
`authenticated otp` records whether an MFA handler (and with it OTP
acquisition) ran on the way; `timedOut` is a propagated wait timeout;
`exited` is a process exit performed by the core itself. -/
inductive LoginOutcome where
  | authenticated (otpAttempted : Bool)
  | timedOut (otpAttempted : Bool)
  | exited (code : Nat)
  deriving DecidableEq

/-- Lines 700–716 of `get_accounts_info` after credential submission: wait
for the redirect (observation `p`), dispatch on the classifiers, then wait
for the landing page (observation `p2`, the page as seen at that second
wait). -/
def login_flow (p p2 : Page) : LoginOutcome :=
  if !redirect_done p then .timedOut false
  else
    match classify_redirect p with
    | .exitProcess c => .exited c
    | .handleMfa => if on_dashboard p2 then .authenticated true else .timedOut true
    | .handleMfaAlternate =>
      if on_dashboard p2 then .authenticated true else .timedOut true
    | .noChallenge =>
      if on_dashboard p2 then .authenticated false else .timedOut false

/-! ## Helper lemmas -/

/-- A code extracted by `findFirstCode` has length within `[minL, maxL]`
whenever the bounds are coherent. -/
theorem findFirstCode_length {minL maxL : Nat} :
    ∀ cs : List Char, minL ≤ maxL → ∀ c : String,
      findFirstCode minL maxL cs = some c →
      minL ≤ c.length ∧ c.length ≤ maxL := by
  intro cs
  induction cs with
  | nil =>
    intro hle c h
    simp only [findFirstCode] at h
    split at h
    · cases h
      constructor <;> simp_all [String.length]
    · cases h
  | cons a rest ih =>
    intro hle c h
    simp only [findFirstCode] at h
    split at h
    · cases h
      rename_i hrun
      have hlen : (((a :: rest).takeWhile (fun d => d.isDigit)).take maxL).length
          = min maxL ((a :: rest).takeWhile (fun d => d.isDigit)).length :=
        List.length_take _ _
      constructor
      · simp only [String.length, String.mk]
        omega
      · simp only [String.length, String.mk]
        omega
    · exact ih hle c h

/-- A `code` outcome of `scanContent` comes from `findFirstCode`. -/
theorem scanContent_code {content tag : String} {minL maxL : Nat} {c : String}
    (h : scanContent content tag minL maxL = .code c) :
    findFirstCode minL maxL (stripNewlines content).data = some c := by
  simp only [scanContent] at h
  split at h
  · split at h
    · cases h; assumption
    · cases h
  · cases h

/-- A `code` outcome of `scanFiles` comes from scanning some content. -/
theorem scanFiles_code {files : List (String × String)} {tag : String}
    {minL maxL : Nat} {ext : String} {c : String} :
    ∀ names : List String, scanFiles files tag minL maxL ext names = .code c →
      ∃ content : String, scanContent content tag minL maxL = .code c := by
  intro names
  induction names with
  | nil => intro h; cases h
  | cons n rest ih =>
    intro h
    simp only [scanFiles] at h
    split at h
    · split at h
      · cases h; exact ⟨contentOf files n, by assumption⟩
      · cases h
      · exact ih h
    · exact ih h

/-- A `code` outcome of `scanDir` comes from scanning some content. -/
theorem scanDir_code {files : List (String × String)} {tag : String}
    {minL maxL : Nat} {ext : String} {rev : Bool} {c : String}
    (h : scanDir files tag minL maxL ext rev = .code c) :
    ∃ content : String, scanContent content tag minL maxL = .code c :=
  scanFiles_code _ h

/-- With a never-matching scan the polling loop cannot return a code. -/
theorem otpLoop_noMatch_ne_ok {timeout delay : Nat} {c : String} :
    ∀ fuel total s,
      otpLoop .noMatch timeout delay fuel total ≠ some (.ok c, s) := by
  intro fuel
  induction fuel with
  | zero => intro total s h; cases h
  | succ f ih =>
    intro total s h
    simp only [otpLoop] at h
    split at h
    · cases h
    · cases hrec : otpLoop .noMatch timeout delay f (total + delay) with
      | none => rw [hrec] at h; cases h
      | some p =>
        obtain ⟨r', s'⟩ := p
        rw [hrec] at h
        cases h
        exact ih _ _ hrec

/-- The polling loop returns a code only when the per-iteration scan finds
that code. -/
theorem otpLoop_ok {scan : FileScan} {timeout delay : Nat} {c : String} :
    ∀ fuel total s, otpLoop scan timeout delay fuel total = some (.ok c, s) →
      scan = .code c := by
  intro fuel total s h
  cases hscan : scan with
  | noMatch =>
    rw [hscan] at h
    exact absurd h (otpLoop_noMatch_ne_ok _ _ _)
  | code c' =>
    rw [hscan] at h
    cases fuel with
    | zero => cases h
    | succ f =>
      simp only [otpLoop] at h
      split at h
      · cases h
      · cases h; rfl
  | indexError =>
    rw [hscan] at h
    cases fuel with
    | zero => cases h
    | succ f =>
      simp only [otpLoop] at h
      split at h
      · cases h
      · cases h

/-- `search_files_for_int` returns a code only when scanning the directory
produces that code. -/
theorem search_ok_scan {d : Dir} {tag : String} {minL maxL timeout : Nat}
    {ext : String} {rev : Bool} {delay fuel : Nat} {c : String} {s : Nat}
    (h : search_files_for_int d tag minL maxL timeout ext rev delay fuel
      = some (.ok c, s)) :
    scanDir d.files tag minL maxL ext rev = .code c := by
  simp only [search_files_for_int] at h
  split at h
  · cases h
  · cases h
  · split at h
    · cases h
    · cases h
    · split at h
      · cases h
      · cases h
        exact otpLoop_ok _ _ _ (by assumption)

/-- A satisfied wait condition exits the wait loop at once, with no sleeps. -/
theorem waitLoop_true {timeout : Nat} {err : Err} :
    ∀ fuel i, waitLoop true timeout err fuel i = some (.ok (), 0) := by
  intro fuel i
  cases fuel <;> rfl

/-- One-step unfolding of `waitLoop`. -/
theorem waitLoop_step {cond : Bool} {timeout : Nat} {err : Err} {fuel i : Nat} :
    waitLoop cond timeout err (fuel + 1) i =
      if cond then some (.ok (), 0)
      else if timeout ≤ 1000 * (i + 1) then some (.error err, 1)
      else
        match waitLoop cond timeout err fuel (i + 1) with
        | some (r, s) => some (r, s + 1)
        | none => none := rfl

/-- One-step unfolding of `otpLoop`. -/
theorem otpLoop_step {scan : FileScan} {timeout delay fuel total : Nat} :
    otpLoop scan timeout delay (fuel + 1) total =
      if timeout ≤ 1000 * total then some (.error (codeNotFoundErr timeout), 0)
      else
        match scan with
        | .code c => some (.ok c, delay)
        | .indexError => some (.error .indexError, delay)
        | .noMatch =>
          match otpLoop scan timeout delay fuel (total + delay) with
          | some (r, s) => some (r, s + delay)
          | none => none := rfl

/-- An unsatisfied (static) wait condition makes the wait loop raise `err` at
the first whole second `s` of cumulative sleep with `timeout ≤ 1000 * s`. -/
theorem waitLoop_false {timeout : Nat} {err : Err} :
    ∀ f i, timeout ≤ 1000 * (i + f + 1) →
      ∃ s, waitLoop false timeout err (f + 1) i = some (.error err, s) ∧
        1 ≤ s ∧ timeout ≤ 1000 * (i + s) ∧
        (s = 1 ∨ 1000 * (i + s - 1) < timeout) := by
  intro f
  induction f with
  | zero =>
    intro i hf
    refine ⟨1, ?_, le_refl 1, by omega, Or.inl rfl⟩
    rw [waitLoop_step, if_neg (by simp), if_pos (by omega)]
  | succ f ih =>
    intro i hf
    by_cases hstop : timeout ≤ 1000 * (i + 1)
    · refine ⟨1, ?_, le_refl 1, by omega, Or.inl rfl⟩
      rw [waitLoop_step, if_neg (by simp), if_pos hstop]
    · obtain ⟨s', hs', h1, h2, h3⟩ := ih (i + 1) (by omega)
      refine ⟨s' + 1, ?_, by omega, by omega, Or.inr ?_⟩
      · rw [waitLoop_step, if_neg (by simp), if_neg hstop, hs']
      · rcases h3 with h3 | h3
        · subst h3; omega
        · omega

/-- A never-matching scan makes the polling loop raise the code-not-found
timeout at the first poll boundary `s` (seconds slept) with
`timeout ≤ 1000 * s`. -/
theorem otpLoop_noMatch_err {timeout delay : Nat} :
    ∀ f total, timeout ≤ 1000 * (total + f * delay) →
      ∃ s, otpLoop .noMatch timeout delay (f + 1) total
          = some (.error (codeNotFoundErr timeout), s) ∧
        timeout ≤ 1000 * (total + s) ∧
        (s = 0 ∨ (delay ≤ s ∧ 1000 * (total + s - delay) < timeout)) := by
  intro f
  induction f with
  | zero =>
    intro total hf
    refine ⟨0, ?_, by omega, Or.inl rfl⟩
    rw [otpLoop_step, if_pos (by omega)]
  | succ f ih =>
    intro total hf
    rw [show (f + 1) * delay = f * delay + delay by ring] at hf
    by_cases hstop : timeout ≤ 1000 * total
    · refine ⟨0, ?_, by omega, Or.inl rfl⟩
      rw [otpLoop_step, if_pos hstop]
    · obtain ⟨s', hs', h2, h3⟩ := ih (total + delay) (by omega)
      refine ⟨s' + delay, ?_, by omega, Or.inr ⟨by omega, ?_⟩⟩
      · rw [otpLoop_step, if_neg hstop, hs']
      · rcases h3 with h3 | h3
        · subst h3; omega
        · omega

/-- The skip-or-append accumulation loop equals appending the concatenated
images of the kept elements. -/
theorem foldl_filter_append {α β : Type} (P : α → Bool) (g : α → List β) :
    ∀ (l : List α) (acc : List β),
      l.foldl (fun acc t => if P t then acc ++ g t else acc) acc =
        acc ++ ((l.filter P).map g).flatten := by
  intro l
  induction l with
  | nil => intro acc; simp
  | cons a rest ih =>
    intro acc
    by_cases h : P a
    · simp [List.filter_cons, h, ih, List.append_assoc]
    · simp [List.filter_cons, h, ih]

/-- `rawMetrics` is the concatenation, over the tables carrying all the
required columns, of their per-row metrics in order. -/
theorem rawMetrics_eq {V : Type} [Inhabited V] (table_list : List (DataFrame V))
    (institution account_column symbol_column current_balance_column
      account_type_column : String) :
    rawMetrics table_list institution account_column symbol_column
        current_balance_column account_type_column =
      ((table_list.filter (fun t => hasRequired t account_column
          current_balance_column account_type_column symbol_column)).map
        (tableMetrics institution account_column symbol_column
          current_balance_column account_type_column)).flatten := by
  unfold rawMetrics
  rw [foldl_filter_append]
  simp

/-- One-step unfolding of `retryAux`. -/
theorem retryAux_step {α : Type} {fn : Nat → CallOutcome α} {tr k : Nat} :
    retryAux fn (tr + 1) k =
      match fn k with
      | .ok a => (.value a, 1, 0)
      | .raised w e =>
        if w then
          if tr = 0 then (.raised e, 1, 0)
          else
            match retryAux fn tr (k + 1) with
            | (r, c, s) => (r, c + 1, s + 1)
        else (.raised e, 1, 0) := rfl

/-- With a whitelisted failure on every invocation, the retry loop makes
exactly `tr` invocations and `tr - 1` sleeps before re-raising the final
error. -/
theorem retryAux_allFail {α : Type} {fn : Nat → CallOutcome α}
    {es : Nat → String} (hfn : ∀ k, fn k = .raised true (es k)) :
    ∀ tr k, 1 ≤ tr →
      retryAux fn tr k = (.raised (es (k + tr - 1)), tr, tr - 1) := by
  intro tr
  induction tr with
  | zero => intro k h; omega
  | succ t ih =>
    intro k _
    cases t with
    | zero => rw [retryAux_step, hfn k]; simp
    | succ t' =>
      have hrec := ih (k + 1) (by omega)
      have hidx : k + 1 + (t' + 1) - 1 = k + (t' + 1 + 1) - 1 := by omega
      rw [hidx] at hrec
      rw [retryAux_step, hfn k]
      simp only [if_true, hrec]
      rw [if_neg (by omega)]
      rw [show t' + 1 - 1 + 1 = t' + 1 + 1 - 1 by omega]

/-- The code-not-found message is longer than either fixed wait message, for
every timeout value — the three stage errors carry pairwise distinct
messages. -/
theorem codeNotFoundMsg_length (t : Nat) :
    33 ≤ (codeNotFoundMsg t).length := by
  unfold codeNotFoundMsg
  rw [String.length_append, String.length_append]
  have h1 : ("OTP code not found after " : String).length = 25 := rfl
  have h2 : (" seconds" : String).length = 8 := rfl
  omega

/-- The three OTP-stage errors are pairwise distinct values. -/
theorem otpErrs_distinct (t : Nat) :
    pathNotFoundErr ≠ noFilesFoundErr ∧
      pathNotFoundErr ≠ codeNotFoundErr t ∧
      noFilesFoundErr ≠ codeNotFoundErr t := by
  refine ⟨by decide, ?_, ?_⟩
  · intro h
    have hm : ("File path doesn't exist!" : String) = codeNotFoundMsg t := by
      have := congrArg (fun e => match e with
        | Err.timeoutError m => m
        | _ => "") h
      simpa [pathNotFoundErr, codeNotFoundErr] using this
    have h24 : ("File path doesn't exist!" : String).length = 24 := rfl
    have := codeNotFoundMsg_length t
    rw [← hm] at this
    omega
  · intro h
    have hm : ("No files in file path!" : String) = codeNotFoundMsg t := by
      have := congrArg (fun e => match e with
        | Err.timeoutError m => m
        | _ => "") h
      simpa [noFilesFoundErr, codeNotFoundErr] using this
    have h22 : ("No files in file path!" : String).length = 22 := rfl
    have := codeNotFoundMsg_length t
    rw [← hm] at this
    omega

/-! ## Claims -/

/-- C1 (counterexample): on a `Timeout`-raising wrapped call the diagnostic
capture wrapper re-raises the original error but writes exactly one artifact
file — the screenshot at `savePath`; no full-page snapshot with the extension
swapped (`.html`) is ever written, contradicting the claim that both
artifacts exist afterwards. -/
theorem C1_counterexample :
    (screenshot_on_timeout "/errors/2024_Chase.png"
        (.timeoutError : StepOutcome Unit)).1 = .timeoutError ∧
      writtenFiles (screenshot_on_timeout "/errors/2024_Chase.png"
        (.timeoutError : StepOutcome Unit)).2 = ["/errors/2024_Chase.png"] ∧
      "/errors/2024_Chase.html" ∉ writtenFiles (screenshot_on_timeout
        "/errors/2024_Chase.png" (.timeoutError : StepOutcome Unit)).2 := by
  decide

/-- C1 (amended): on a `Timeout`-raising wrapped call the wrapper ensures the
destination directory exists, writes the screenshot at `savePath` — and only
that file — and the caller still observes the original `Timeout` error
unchanged. -/
theorem C1_timeout_screenshot_and_reraise (α : Type) (savePath : String) :
    screenshot_on_timeout savePath (.timeoutError : StepOutcome α) =
      (.timeoutError,
        [.makeDirs (dirname savePath), .writeScreenshot savePath]) ∧
    writtenFiles (screenshot_on_timeout savePath
      (.timeoutError : StepOutcome α)).2 = [savePath] :=
  ⟨rfl, rfl⟩

/-- C2 (counterexample): a candidate file whose content holds the institute
tag and a single digit run of length 8 — outside `[minDigits, maxDigits] =
[6, 6]` — is still matched: `search_files_for_int` returns the first 6 digits
of the run instead of eventually raising the code-not-found timeout. -/
theorem C2_counterexample :
    search_files_for_int ⟨true, [("otp.txt", "MyBank: 12345678")]⟩
      "MyBank" 6 6 300000 ".txt" false 30 20 = some (.ok "123456", 30) := rfl

/-- C2 (amended): whenever `minDigits ≤ maxDigits`, any code returned by
`search_files_for_int` has length within `[minDigits, maxDigits]`; and when
no candidate file matches the institute-tag pattern at all (a static
never-matching directory), the poller raises the code-not-found
`TimeoutError` once the cumulative poll delay exhausts the timeout.  (A file
whose digit runs are longer than `maxDigits` is still matched, truncated —
see the counterexample — so out-of-range digit runs do not guarantee
`CodeNotFound`.) -/
theorem C2_code_length_and_timeout :
    (∀ (d : Dir) (tag : String) (minL maxL timeout : Nat) (ext : String)
        (rev : Bool) (delay fuel : Nat) (c : String) (s : Nat),
      minL ≤ maxL →
      search_files_for_int d tag minL maxL timeout ext rev delay fuel
        = some (.ok c, s) →
      minL ≤ c.length ∧ c.length ≤ maxL) ∧
    (∀ (d : Dir) (tag : String) (minL maxL timeout : Nat) (ext : String)
        (rev : Bool) (delay : Nat),
      d.pathExists = true → d.files ≠ [] → 1 ≤ delay →
      scanDir d.files tag minL maxL ext rev = .noMatch →
      ∃ fuel s, search_files_for_int d tag minL maxL timeout ext rev delay fuel
        = some (.error (codeNotFoundErr timeout), s)) := by
  constructor
  · intro d tag minL maxL timeout ext rev delay fuel c s hle h
    obtain ⟨content, hc⟩ := scanDir_code (search_ok_scan h)
    exact findFirstCode_length _ hle c (scanContent_code hc)
  · intro d tag minL maxL timeout ext rev delay hex hne hd hscan
    have h1 : wait_for_path_to_exist d timeout (timeout + 1) = some (.ok (), 0) := by
      unfold wait_for_path_to_exist
      rw [hex]
      exact waitLoop_true _ _
    have hfe : d.files.isEmpty = false := by
      cases hf : d.files with
      | nil => exact absurd hf hne
      | cons a l => rfl
    have h2 : wait_for_files_in_dir d timeout (timeout + 1) = some (.ok (), 0) := by
      unfold wait_for_files_in_dir
      rw [hfe]
      exact waitLoop_true _ _
    have hmul : timeout ≤ timeout * delay := by
      calc timeout = timeout * 1 := by omega
        _ ≤ timeout * delay := Nat.mul_le_mul_left timeout hd
    obtain ⟨s, hs, -, -⟩ :=
      @otpLoop_noMatch_err timeout delay timeout 0 (by omega)
    refine ⟨timeout + 1, s, ?_⟩
    unfold search_files_for_int
    rw [h1, h2]
    simp only [hscan, hs]
    simp

/-- C2 (witness): the amended theorem applied at concrete inputs — the C8
directory yields a 6-digit code (within `[6, 6]`), and a directory whose only
file never matches the tag raises the code-not-found timeout. -/
theorem C2_witness :
    (6 ≤ ("481932" : String).length ∧ ("481932" : String).length ≤ 6) ∧
    (∃ fuel s, search_files_for_int ⟨true, [("note.txt", "no code here")]⟩
      "MyBank" 6 6 100000 ".txt" false 30 fuel
        = some (.error (codeNotFoundErr 100000), s)) :=
  ⟨C2_code_length_and_timeout.1
      ⟨true, [("bank_2024.txt", "MyBank: your code is 481932")]⟩
      "MyBank" 6 6 300000 ".txt" false 30 20 "481932" 30 (by decide) rfl,
    C2_code_length_and_timeout.2 ⟨true, [("note.txt", "no code here")]⟩
      "MyBank" 6 6 100000 ".txt" false 30 rfl (by decide) (by decide) (by decide)⟩

/-- C8: for a directory containing the single file `bank_2024.txt` whose
content is `"MyBank: your code is 481932"`, with institute tag `"MyBank"`
and `minDigits = maxDigits = 6`, `search_files_for_int` returns `"481932"`
(within the first poll cycle, after one 30-second poll sleep). -/
theorem C8_scenario :
    search_files_for_int ⟨true, [("bank_2024.txt", "MyBank: your code is 481932")]⟩
      "MyBank" 6 6 300000 ".txt" false 30 20 = some (.ok "481932", 30) := rfl

/-- The C3 scenario table carrying all four required columns, three rows. -/
def c3Table1 : DataFrame String :=
  { cols := ["account", "account_type", "symbol", "balance"]
    rows :=
      [[("account", "1"), ("account_type", "deposit"), ("symbol", "USD"),
          ("balance", "100.0")],
        [("account", "2"), ("account_type", "deposit"), ("symbol", "USD"),
          ("balance", "200.0")],
        [("account", "3"), ("account_type", "credit"), ("symbol", "USD"),
          ("balance", "300.0")]] }

/-- The C3 scenario table missing the symbol column. -/
def c3Table2 : DataFrame String :=
  { cols := ["account", "account_type", "balance"]
    rows := [[("account", "9"), ("account_type", "credit"), ("balance", "1.0")]] }

/-- C3: `convert_to_prometheus` emits, for every table carrying all four
required columns, one metric per row with labels
`(institution, row[accountCol], row[accountTypeCol], row[symbolCol])` and
value `row[valueCol]`; tables missing a required column contribute nothing;
and on the scenario of one 3-row qualifying table plus one table missing the
symbol column it returns exactly those 3 metrics. -/
theorem C3_one_metric_per_qualifying_row :
    (∀ (V : Type) [Inhabited V] (table_list : List (DataFrame V))
        (institution account_column symbol_column current_balance_column
          account_type_column : String),
      rawMetrics table_list institution account_column symbol_column
          current_balance_column account_type_column =
        ((table_list.filter (fun t => hasRequired t account_column
            current_balance_column account_type_column symbol_column)).map
          (tableMetrics institution account_column symbol_column
            current_balance_column account_type_column)).flatten) ∧
    (∀ (V : Type) [Inhabited V] (institution account_column symbol_column
        current_balance_column account_type_column : String)
        (row : List (String × V)),
      rowMetric institution account_column symbol_column
          current_balance_column account_type_column row =
        { institution := institution
          account := rowVal row account_column
          accountType := rowVal row account_type_column
          symbol := rowVal row symbol_column
          value := rowVal row current_balance_column }) ∧
    convert_to_prometheus [c3Table1, c3Table2] "Bank" "account" "symbol"
        "balance" "account_type" =
      .ok [⟨"Bank", "1", "deposit", "USD", "100.0"⟩,
        ⟨"Bank", "2", "deposit", "USD", "200.0"⟩,
        ⟨"Bank", "3", "credit", "USD", "300.0"⟩] := by
  refine ⟨?_, ?_, rfl⟩
  · intro V _ table_list institution a s b t
    exact rawMetrics_eq table_list institution a s b t
  · intro V _ institution a s b t row
    rfl

/-- The C4 witness table, which misses the symbol column and so is skipped. -/
def c4Skipped : DataFrame String :=
  { cols := ["account", "account_type", "balance"]
    rows := [[("account", "9"), ("account_type", "credit"), ("balance", "5.0")]] }

/-- C4: `convert_to_prometheus` never returns an empty metric list — whenever
every table lacks a required column (which covers the empty table list), it
raises the `AssertionError` standing for the spec's `EmptyMetricSet` instead
of returning an empty result. -/
theorem C4_never_empty :
    (∀ (V : Type) [Inhabited V] (table_list : List (DataFrame V))
        (institution account_column symbol_column current_balance_column
          account_type_column : String),
      convert_to_prometheus table_list institution account_column symbol_column
          current_balance_column account_type_column ≠ .ok []) ∧
    (∀ (V : Type) [Inhabited V] (table_list : List (DataFrame V))
        (institution account_column symbol_column current_balance_column
          account_type_column : String),
      (∀ t ∈ table_list, hasRequired t account_column current_balance_column
          account_type_column symbol_column = false) →
      convert_to_prometheus table_list institution account_column symbol_column
          current_balance_column account_type_column
        = .error .assertionError) := by
  constructor
  · intro V _ table_list institution a s b t h
    unfold convert_to_prometheus at h
    split at h
    · cases h
    · rename_i hne
      injection h with h'
      rw [h'] at hne
      exact hne rfl
  · intro V _ table_list institution a s b t hall
    have hraw : rawMetrics table_list institution a s b t = [] := by
      rw [rawMetrics_eq]
      have hfil : table_list.filter
          (fun tab => hasRequired tab a b t s) = [] := by
        rw [List.filter_eq_nil_iff]
        intro tab htab
        simp [hall tab htab]
      rw [hfil]
      rfl
    unfold convert_to_prometheus
    rw [hraw]
    rfl

/-- C4 (witness): a list whose only table misses the symbol column raises the
assertion failure. -/
theorem C4_witness :
    convert_to_prometheus [c4Skipped] "Bank" "account" "symbol" "balance"
      "account_type" = .error .assertionError :=
  C4_never_empty.2 String [c4Skipped] "Bank" "account" "symbol" "balance"
    "account_type" (by decide)

/-- C5: with `retries = 3` and a wrapped function failing twice with a
whitelisted error and then succeeding, `retry` returns the success value
after exactly 3 invocations and 2 sleeps; and for every `N ≥ 1`, with
`retries = N` and an always-failing (whitelisted) function, it re-raises the
final error after exactly `N` invocations and `N - 1` sleeps. -/
theorem C5_retry_counts :
    (∀ (α : Type) (fn : Nat → CallOutcome α) (v : α) (e0 e1 : String),
      fn 0 = .raised true e0 → fn 1 = .raised true e1 → fn 2 = .ok v →
      retry fn 3 = (.value v, 3, 2)) ∧
    (∀ (α : Type) (fn : Nat → CallOutcome α) (es : Nat → String) (N : Nat),
      1 ≤ N → (∀ k, fn k = .raised true (es k)) →
      retry fn (N : Int) = (.raised (es (N - 1)), N, N - 1)) := by
  constructor
  · intro α fn v e0 e1 h0 h1 h2
    show retryAux fn (3 : Int).toNat 0 = (.value v, 3, 2)
    rw [show ((3 : Int).toNat) = 3 from rfl]
    rw [retryAux_step, h0]
    norm_num
    rw [retryAux_step, h1]
    norm_num
    rw [retryAux_step, h2]
    simp
  · intro α fn es N hN hfn
    show retryAux fn ((N : Int)).toNat 0 = (.raised (es (N - 1)), N, N - 1)
    rw [Int.toNat_natCast]
    have := retryAux_allFail hfn N 0 hN
    simpa using this

/-- The C5 witness functions: two whitelisted failures then success, and an
always-failing function. -/
def c5FailTwice : Nat → CallOutcome Nat :=
  fun k => if k < 2 then .raised true "boom" else .ok 42

/-- Always fails with a whitelisted error. -/
def c5AlwaysFail : Nat → CallOutcome Nat :=
  fun _ => .raised true "fail"

/-- C5 (witness): the counting theorem applied at concrete functions. -/
theorem C5_witness :
    retry c5FailTwice 3 = (.value 42, 3, 2) ∧
      retry c5AlwaysFail ((4 : Nat) : Int) = (.raised "fail", 4, 3) :=
  ⟨C5_retry_counts.1 Nat c5FailTwice 42 "boom" "boom" rfl rfl rfl,
    C5_retry_counts.2 Nat c5AlwaysFail (fun _ => "fail") 4 (by omega)
      (fun _ => rfl)⟩

/-- A page showing the Chase forced-password-reset state. -/
def c6ResetPage : Page :=
  { current_url := "https://secure07c.chase.com/web/auth/nav?fromOrigin=fail"
    page_source := "We can't find that username and password. Keep in mind: You won't be able to see your statements and notices until you reset your password." }

/-- A second password-reset page, used to witness the amended C6 theorem. -/
def c6ResetPage2 : Page :=
  { current_url := "https://www.chase.com/web/auth/recovery"
    page_source := "Sorry. We can't find that username and password. Keep in mind: You won't be able to see your statements and notices until you reset your password. Please try again." }

/-- C6 (counterexample): on a password-reset page the login flow of
`get_accounts_info` does not surface a distinguishable terminal error to the
caller — the core itself calls `exit(1)`, terminating the process (outcome
`.exited 1`), so the caller never gets to choose between exiting non-zero
and recording-and-continuing. -/
theorem C6_counterexample :
    classify_redirect c6ResetPage = .exitProcess 1 ∧
      login_flow c6ResetPage c6ResetPage = .exited 1 := by
  decide

/-- C6 (amended): when the session is classified as password-reset-required
(and not as either MFA challenge), the retrieval is terminal and fails fast —
no MFA handler and no OTP acquisition is invoked — but the failure is
signalled by the core itself exiting the process with code 1 rather than by
an error value exposed to the caller. -/
theorem C6_reset_terminal_exit (p p2 : Page)
    (h1 : is_mfa_redirect p = false) (h2 : is_mfa_redirect_alternate p = false)
    (h3 : password_needs_reset p = true) :
    classify_redirect p = .exitProcess 1 ∧ login_flow p p2 = .exited 1 := by
  constructor
  · simp [classify_redirect, h1, h2, h3]
  · simp [login_flow, redirect_done, classify_redirect, h1, h2, h3]

/-- C6 (witness): the amended theorem applied at a concrete reset page. -/
theorem C6_witness :
    classify_redirect c6ResetPage2 = .exitProcess 1 ∧
      login_flow c6ResetPage2 c6ResetPage2 = .exited 1 :=
  C6_reset_terminal_exit c6ResetPage2 c6ResetPage2 (by decide) (by decide)
    (by decide)

/-- C7: the three OTP acquisition stages fail with pairwise distinct errors —
`TimeoutError("File path doesn't exist!")` when the directory never exists,
`TimeoutError("No files in file path!")` when it stays empty, and the
code-not-found `TimeoutError` when polling never matches — and each stage
raises at the first poll boundary at which its cumulative sleep `s` reaches
the configured timeout (`timeout ≤ 1000 * s`, with the preceding boundary
still below the timeout). -/
theorem C7_three_stage_errors :
    (∀ t : Nat, pathNotFoundErr ≠ noFilesFoundErr ∧
      pathNotFoundErr ≠ codeNotFoundErr t ∧
      noFilesFoundErr ≠ codeNotFoundErr t) ∧
    (∀ (d : Dir) (tag : String) (minL maxL timeout : Nat) (ext : String)
        (rev : Bool) (delay : Nat), d.pathExists = false →
      ∃ fuel s, search_files_for_int d tag minL maxL timeout ext rev delay fuel
          = some (.error pathNotFoundErr, s) ∧ 1 ≤ s ∧ timeout ≤ 1000 * s ∧
        (s = 1 ∨ 1000 * (s - 1) < timeout)) ∧
    (∀ (d : Dir) (tag : String) (minL maxL timeout : Nat) (ext : String)
        (rev : Bool) (delay : Nat), d.pathExists = true → d.files = [] →
      ∃ fuel s, search_files_for_int d tag minL maxL timeout ext rev delay fuel
          = some (.error noFilesFoundErr, s) ∧ 1 ≤ s ∧ timeout ≤ 1000 * s ∧
        (s = 1 ∨ 1000 * (s - 1) < timeout)) ∧
    (∀ (d : Dir) (tag : String) (minL maxL timeout : Nat) (ext : String)
        (rev : Bool) (delay : Nat), d.pathExists = true → d.files ≠ [] →
      1 ≤ delay → scanDir d.files tag minL maxL ext rev = .noMatch →
      ∃ fuel s, search_files_for_int d tag minL maxL timeout ext rev delay fuel
          = some (.error (codeNotFoundErr timeout), s) ∧
        timeout ≤ 1000 * s ∧
        (s = 0 ∨ (delay ≤ s ∧ 1000 * (s - delay) < timeout))) := by
  refine ⟨fun t => otpErrs_distinct t, ?_, ?_, ?_⟩
  · intro d tag minL maxL timeout ext rev delay hex
    obtain ⟨s, hs, hs1, hs2, hs3⟩ :=
      @waitLoop_false timeout pathNotFoundErr timeout 0 (by omega)
    refine ⟨timeout + 1, s, ?_, hs1, by simpa using hs2, by simpa using hs3⟩
    unfold search_files_for_int wait_for_path_to_exist
    rw [hex, hs]
  · intro d tag minL maxL timeout ext rev delay hex hempty
    have h1 : wait_for_path_to_exist d timeout (timeout + 1)
        = some (.ok (), 0) := by
      unfold wait_for_path_to_exist
      rw [hex]
      exact waitLoop_true _ _
    have hfe : d.files.isEmpty = true := by rw [hempty]; rfl
    obtain ⟨s, hs, hs1, hs2, hs3⟩ :=
      @waitLoop_false timeout noFilesFoundErr timeout 0 (by omega)
    have hw2 : wait_for_files_in_dir d timeout (timeout + 1)
        = some (.error noFilesFoundErr, s) := by
      unfold wait_for_files_in_dir
      rw [hfe]
      exact hs
    refine ⟨timeout + 1, s, ?_, hs1, by simpa using hs2, by simpa using hs3⟩
    unfold search_files_for_int
    simp only [h1, hw2]
    simp
  · intro d tag minL maxL timeout ext rev delay hex hne hd hscan
    have h1 : wait_for_path_to_exist d timeout (timeout + 1)
        = some (.ok (), 0) := by
      unfold wait_for_path_to_exist
      rw [hex]
      exact waitLoop_true _ _
    have hfe : d.files.isEmpty = false := by
      cases hf : d.files with
      | nil => exact absurd hf hne
      | cons a l => rfl
    have h2 : wait_for_files_in_dir d timeout (timeout + 1)
        = some (.ok (), 0) := by
      unfold wait_for_files_in_dir
      rw [hfe]
      exact waitLoop_true _ _
    have hmul : timeout ≤ timeout * delay := by
      calc timeout = timeout * 1 := by omega
        _ ≤ timeout * delay := Nat.mul_le_mul_left timeout hd
    obtain ⟨s, hs, hb1, hb2⟩ :=
      @otpLoop_noMatch_err timeout delay timeout 0 (by omega)
    refine ⟨timeout + 1, s, ?_, by simpa using hb1, by simpa using hb2⟩
    unfold search_files_for_int
    rw [h1, h2]
    simp only [hscan, hs]
    simp

/-- C7 (witness): the three stages observed at concrete directories. -/
theorem C7_witness :
    (pathNotFoundErr ≠ noFilesFoundErr ∧
      pathNotFoundErr ≠ codeNotFoundErr 1500 ∧
      noFilesFoundErr ≠ codeNotFoundErr 1500) ∧
    (∃ fuel s, search_files_for_int ⟨false, []⟩ "X" 6 6 1500 ".txt" false 30 fuel
        = some (.error pathNotFoundErr, s) ∧ 1 ≤ s ∧ 1500 ≤ 1000 * s ∧
      (s = 1 ∨ 1000 * (s - 1) < 1500)) ∧
    (∃ fuel s, search_files_for_int ⟨true, []⟩ "X" 6 6 1500 ".txt" false 30 fuel
        = some (.error noFilesFoundErr, s) ∧ 1 ≤ s ∧ 1500 ≤ 1000 * s ∧
      (s = 1 ∨ 1000 * (s - 1) < 1500)) ∧
    (∃ fuel s, search_files_for_int ⟨true, [("a.txt", "hello")]⟩ "X" 6 6 100000
        ".txt" false 30 fuel
        = some (.error (codeNotFoundErr 100000), s) ∧ 100000 ≤ 1000 * s ∧
      (s = 0 ∨ (30 ≤ s ∧ 1000 * (s - 30) < 100000))) :=
  ⟨C7_three_stage_errors.1 1500,
    C7_three_stage_errors.2.1 ⟨false, []⟩ "X" 6 6 1500 ".txt" false 30 rfl,
    C7_three_stage_errors.2.2.1 ⟨true, []⟩ "X" 6 6 1500 ".txt" false 30 rfl rfl,
    C7_three_stage_errors.2.2.2 ⟨true, [("a.txt", "hello")]⟩ "X" 6 6 100000
      ".txt" false 30 rfl (by decide) (by decide) (by decide)⟩

/-- A page observed on the Chase dashboard with no challenge markers. -/
def c9DashboardPage : Page :=
  { current_url := "https://secure07c.chase.com/web/auth/dashboard#/dashboard/overview"
    page_source := "Good morning. Here is your account overview." }

/-- C9: from a redirect observation already on the landing page with none of
the challenge classifiers matching (valid credentials, no far-end MFA), the
login flow goes directly to the authenticated outcome with no MFA handler —
and hence no OTP acquisition — ever invoked. -/
theorem C9_no_mfa_direct_authentication (p : Page)
    (h0 : on_dashboard p = true) (h1 : is_mfa_redirect p = false)
    (h2 : is_mfa_redirect_alternate p = false)
    (h3 : password_needs_reset p = false) :
    redirect_done p = true ∧ classify_redirect p = .noChallenge ∧
      login_flow p p = .authenticated false := by
  refine ⟨by simp [redirect_done, h0], ?_, ?_⟩
  · simp [classify_redirect, h1, h2, h3]
  · simp [login_flow, redirect_done, classify_redirect, h0, h1, h2, h3]

/-- C9 (witness): the theorem applied at a concrete dashboard observation. -/
theorem C9_witness :
    redirect_done c9DashboardPage = true ∧
      classify_redirect c9DashboardPage = .noChallenge ∧
      login_flow c9DashboardPage c9DashboardPage = .authenticated false :=
  C9_no_mfa_direct_authentication c9DashboardPage (by decide) (by decide)
    (by decide) (by decide)

/-- C10: for every wrapped function and every non-positive retry budget, the
retry wrapper performs zero invocations and zero sleeps and yields the
implicit `None` — neither a result nor an error. -/
theorem C10_nonpositive_retries (α : Type) (fn : Nat → CallOutcome α)
    (retries : Int) (h : retries ≤ 0) :
    retry fn retries = (.noneReturned, 0, 0) := by
  unfold retry
  rw [Int.toNat_of_nonpos h]
  rfl

/-- C10 (witness): a never-failing function under `retries = -1` is never
invoked and the call yields `None`. -/
theorem C10_witness :
    retry (fun _ => (CallOutcome.ok 7 : CallOutcome Nat)) (-1)
      = (.noneReturned, 0, 0) :=
  C10_nonpositive_retries Nat (fun _ => CallOutcome.ok 7) (-1) (by decide)

end BankScrapers
